import Mathlib

/-!
Verification development for the ailens obstacle-detection pipeline.

Every definition below is a shallow embedding, in Lean 4, of a function of the
TypeScript sources (src/src/hooks/detectionCore.ts,
src/src/hooks/useTensorFlowDetectionProcessor.ts, src/src/hooks/useNavigationGuidance.ts,
src/src/hooks/useObstacleDetector.ts, src/src/utils/parseDetections.ts).
JavaScript numbers are embedded as rationals; every comparison that the
TypeScript code performs is exercised well away from floating-point rounding
boundaries by the concrete inputs used here, so the rational model is faithful
on all evaluated inputs.  Boolean-valued JavaScript conditions are embedded as
`if prop then true else false` over the corresponding decidable propositions.
Mutable state held in React refs is embedded as explicit state records
threaded through step functions.
-/

namespace AiLens

/-! ## detectionCore.ts -/

/-- Embedding of DetectionOptions (detectionCore.ts lines 1-9).  `frames` and
`smoothingWindow` are integer counts in every call site. -/
structure DetectionOptions where
  frames : Int
  threshold : ℚ
  hysteresis : ℚ
  minSlope : ℚ
  suddenDelta : ℚ
  smoothingWindow : Int
  allowSizeOnly : Bool
deriving DecidableEq

/-- Embedding of DetectionResult (detectionCore.ts lines 11-16).
`avgConfidence = none` embeds the TypeScript value null. -/
structure DetectionResult where
  newDetected : Bool
  smoothed : ℚ
  slope : ℚ
  avgConfidence : Option ℚ
deriving DecidableEq

/-- JavaScript Array.prototype.slice with a single (possibly negative) start
argument, as used by heights.slice(-frames) in detectionCore.ts line 69 and
by smoothSeries.slice(len - regressionWindow) in line 76. -/
def jsSlice (l : List ℚ) (k : Int) : List ℚ :=
  if 0 ≤ k then l.drop k.toNat
  else l.drop (l.length - min (-k).toNat l.length)

/-- detectionCore.ts lines 34-37: arithmetic mean, 0 on the empty list. -/
def average (l : List ℚ) : ℚ :=
  if l.length = 0 then 0 else l.sum / l.length

/-- detectionCore.ts lines 39-52: for each index i, mean of the raw values in
the window [max 0 (i - (window-1)), i].  For window ≥ 1 the window is never
empty so the count is never zero (the JS code would produce NaN only for
window ≤ 0, a configuration no call site produces; the 0-count branch here
returns 0). -/
def movingAverageSeries (values : List ℚ) (window : Int) : List ℚ :=
  (List.range values.length).map (fun (i : Nat) =>
    let start : Int := max 0 ((i : Int) - (window - 1))
    let seg := (values.take (i + 1)).drop start.toNat
    if seg.length = 0 then 0 else seg.sum / seg.length)

/-- detectionCore.ts lines 54-67: ordinary least squares slope over indices
0..n-1; 0 when fewer than two points or when the denominator vanishes. -/
def linearRegressionSlope (values : List ℚ) : ℚ :=
  let n := values.length
  if n ≤ 1 then 0
  else
    let meanX : ℚ := ((n : ℚ) - 1) / 2
    let meanY := average values
    let num := ((List.range n).map
      (fun (i : Nat) => ((i : ℚ) - meanX) * (values.getD i 0 - meanY))).sum
    let denom := ((List.range n).map (fun (i : Nat) => ((i : ℚ) - meanX) ^ 2)).sum
    if denom = 0 then 0 else num / denom

/-- raw[raw.length-1] ?? 0 where raw = heights.slice(-frames)
(detectionCore.ts line 91). -/
def latestRawOf (heights : List ℚ) (frames : Int) : ℚ :=
  ((jsSlice heights (-frames)).getLast?).getD 0

/-- Embedding of analyzeDetection (detectionCore.ts lines 18-106), a direct
transcription of the source: slice the last `frames` readings, smooth with a
moving average, fit a slope, then run the two-sided hysteresis state machine
with the instant-close and sudden-increase overrides. -/
def analyzeDetection (heights confidences : List ℚ) (previousDetected : Bool)
    (o : DetectionOptions) : DetectionResult :=
  let raw := jsSlice heights (-o.frames)
  let confRaw := jsSlice confidences (-o.frames)
  let smoothSeries := movingAverageSeries raw o.smoothingWindow
  let smoothed := (smoothSeries.getLast?).getD 0
  let regressionWindow : Int := max 2 (min (smoothSeries.length : Int) o.frames)
  let regressionValues := jsSlice smoothSeries ((smoothSeries.length : Int) - regressionWindow)
  let slope := linearRegressionSlope regressionValues
  let avgConfidence := if confRaw.length = 0 then none else some (average confRaw)
  let enterThreshold := o.threshold
  let exitThreshold := max 0 (o.threshold - o.hysteresis)
  let instantDelta := min (15 / 100 : ℚ) (o.hysteresis * 3)
  let latestRaw := latestRawOf heights o.frames
  let newDetected : Bool :=
    if previousDetected then
      -- exit condition, detectionCore.ts line 100
      if (smoothed ≤ exitThreshold ∧ latestRaw ≤ enterThreshold) ∨ slope ≤ -o.minSlope
      then false else true
    else
      -- standard entry (line 92), or instant-close (line 84), or
      -- sudden-increase (line 86: prevSmoothed is non-null exactly when the
      -- smoothed series has at least two points, and is then its second-to-last
      -- entry)
      if ((enterThreshold ≤ smoothed ∨ enterThreshold ≤ latestRaw)
            ∧ (o.allowSizeOnly = true ∨ o.minSlope ≤ slope))
          ∨ enterThreshold + instantDelta ≤ smoothed
          ∨ (2 ≤ smoothSeries.length
              ∧ o.suddenDelta ≤ smoothed - smoothSeries.getD (smoothSeries.length - 2) 0)
      then true else false
  ⟨newDetected, smoothed, slope, avgConfidence⟩

/-! ## useObstacleDetector.ts: the per-reading feeding loop

handleDetection (lines 154-222) pushes each accepted reading into bounded
height/confidence buffers (capacity OBSTACLE_FRAMES, one shift when the push
exceeds it) and runs analyzeDetection on the buffers with the previous
detected flag. -/

/-- State of the detector hook: the two ref buffers and the detected flag. -/
structure DetectorState where
  heights : List ℚ
  confidences : List ℚ
  detected : Bool
deriving DecidableEq

/-- push then shift-if-over-capacity (useObstacleDetector.ts lines 164-173). -/
def pushCapped (l : List ℚ) (x : ℚ) (cap : Nat) : List ℚ :=
  let l2 := l ++ [x]
  if cap < l2.length then l2.drop 1 else l2

/-- One handleDetection call for a reading (height, confidence). -/
def detectorStep (o : DetectionOptions) (cap : Nat) (st : DetectorState)
    (h c : ℚ) : DetectorState :=
  let hs := pushCapped st.heights h cap
  let cs := pushCapped st.confidences c cap
  let res := analyzeDetection hs cs st.detected o
  ⟨hs, cs, res.newDetected⟩

/-- Feed a list of height readings one call at a time (confidence 0 each). -/
def detectorRun (o : DetectionOptions) (cap : Nat) (st : DetectorState)
    (readings : List ℚ) : DetectorState :=
  readings.foldl (fun s h => detectorStep o cap s h 0) st

/-- The detected flag after each reading of a fed sequence, oldest first
(confidence 0 per call). -/
def detectorTrace (o : DetectionOptions) (cap : Nat) (st : DetectorState)
    : List ℚ → List Bool
  | [] => []
  | h :: rest =>
    let st2 := detectorStep o cap st h 0
    st2.detected :: detectorTrace o cap st2 rest

/-- Options used by the C1 scenario: frames=6, threshold=0.35,
smoothingWindow=3 and the documented defaults for everything else
(hysteresis 0.05, minSlope 0.002, suddenDelta 0.08, allowSizeOnly true). -/
def optionsC1 : DetectionOptions :=
  ⟨6, 35 / 100, 5 / 100, 2 / 1000, 8 / 100, 3, true⟩

/-- The C1 input height sequence. -/
def heightsC1 : List ℚ := [1/10, 1/10, 1/10, 1/2, 1/2, 1/2]

/-- Fresh detector state. -/
def detectorInit : DetectorState := ⟨[], [], false⟩

/-- Evaluation helper: Int.toNat on numeric literals, stated in a
simp-indexable form. -/
theorem int_toNat_lit (n : ℕ) :
    (Int.toNat (no_index (OfNat.ofNat n))) = OfNat.ofNat n := rfl

set_option maxHeartbeats 3200000 in
/-- Shared evaluation of the C1 feeding run: the detected flag after each of
the six readings. -/
theorem detectorTrace_c1_eval :
    detectorTrace optionsC1 6 detectorInit heightsC1
      = [false, false, false, true, true, true] := by
  norm_num [detectorTrace, detectorStep, pushCapped, analyzeDetection,
    movingAverageSeries, linearRegressionSlope, average, jsSlice, latestRawOf,
    detectorInit, heightsC1, optionsC1, List.range_succ, int_toNat_lit]

/-- C1 (counterexample): with heights [0.1,0.1,0.1,0.5,0.5,0.5], threshold
0.35, smoothingWindow 3, frames 6 and the remaining defaults, the 3-point
moving average of the fed heights is [1/10,1/10,1/10,7/30,11/30,1/2], so its
first index reaching 0.35 is 4 (the values at indices 0-3 are below 0.35 and
the value at index 4 is not); yet after feeding the first four readings the
obstacleDetected output is already true, i.e. the signal turns true at index
3, strictly before the moving-average crossing, refuting "false at every
earlier index". -/
theorem c1_counterexample :
    movingAverageSeries heightsC1 3 = [1/10, 1/10, 1/10, 7/30, 11/30, 1/2]
      ∧ (1/10 : ℚ) < 35/100 ∧ (7/30 : ℚ) < 35/100 ∧ (35/100 : ℚ) ≤ 11/30
      ∧ (detectorTrace optionsC1 6 detectorInit heightsC1).getD 3 false = true := by
  refine ⟨?_, by norm_num, by norm_num, by norm_num, ?_⟩
  · norm_num [movingAverageSeries, heightsC1, List.range_succ, int_toNat_lit]
  · rw [detectorTrace_c1_eval]
    rfl

/-- C1 (amended): for the input height sequence [0.1,0.1,0.1,0.5,0.5,0.5] with
threshold=0.35, smoothingWindow=3, frames=6 and the remaining options at their
defaults (allowSizeOnly=true, suddenDelta=0.08), starting not-detected and
feeding one reading per call, obstacleDetected is false at indices 0-2 and
true from index 3 on: detection fires one index before the 3-point moving
average first reaches 0.35 (index 4), because the standard entry condition
also triggers on the latest raw height reaching the threshold, and the
sudden-increase override fires at the same index. -/
theorem c1_theorem :
    detectorTrace optionsC1 6 detectorInit heightsC1
      = [false, false, false, true, true, true] :=
  detectorTrace_c1_eval

/-- Options used by the C2 scenario: threshold=0.4, hysteresis=0.05, remaining
values at the documented defaults. -/
def optionsC2 : DetectionOptions :=
  ⟨6, 2/5, 1/20, 1/500, 2/25, 3, true⟩

/-- C2: when the previous state is detected, analyzeDetection switches to
not-detected exactly when (smoothed ≤ max 0 (threshold - hysteresis) and the
latest raw height ≤ threshold) or slope ≤ -minSlope; concretely, with
threshold=0.4 and hysteresis=0.05, the height history [0.36,0.32,0.40]
(smoothed 0.36, latest raw 0.40, slope 0) stays detected, and the history
[0.38,0.34,0.30] (smoothed 0.34, latest raw 0.30) exits. -/
theorem c2_theorem :
    (∀ (heights confidences : List ℚ) (o : DetectionOptions),
        (analyzeDetection heights confidences true o).newDetected = false
          ↔ (((analyzeDetection heights confidences true o).smoothed
                  ≤ max 0 (o.threshold - o.hysteresis)
                ∧ latestRawOf heights o.frames ≤ o.threshold)
              ∨ (analyzeDetection heights confidences true o).slope ≤ -o.minSlope))
    ∧ ((analyzeDetection [36/100, 32/100, 40/100] [0, 0, 0] true optionsC2).smoothed
          = 36/100
        ∧ latestRawOf [36/100, 32/100, 40/100] optionsC2.frames = 40/100
        ∧ (analyzeDetection [36/100, 32/100, 40/100] [0, 0, 0] true optionsC2).slope = 0
        ∧ (analyzeDetection [36/100, 32/100, 40/100] [0, 0, 0] true optionsC2).newDetected
            = true)
    ∧ ((analyzeDetection [38/100, 34/100, 30/100] [0, 0, 0] true optionsC2).smoothed
          = 34/100
        ∧ latestRawOf [38/100, 34/100, 30/100] optionsC2.frames = 30/100
        ∧ (analyzeDetection [38/100, 34/100, 30/100] [0, 0, 0] true optionsC2).newDetected
            = false) := by
  refine ⟨?_, ?_, ?_⟩
  · intro heights confidences o
    simp only [analyzeDetection, eq_self_iff_true, if_true]
    split_ifs with h
    · exact iff_of_true rfl h
    · exact iff_of_false (by simp) h
  · norm_num [analyzeDetection, movingAverageSeries, linearRegressionSlope,
      average, jsSlice, latestRawOf, optionsC2, List.range_succ, int_toNat_lit]
  · norm_num [analyzeDetection, movingAverageSeries, linearRegressionSlope,
      average, jsSlice, latestRawOf, optionsC2, List.range_succ, int_toNat_lit]

/-- Pathological options for the C10 counterexample: threshold 0.5 > 0 but a
negative hysteresis, making the instant-close cutoff threshold+min(0.15,3h)
negative. -/
def optionsC10 : DetectionOptions :=
  ⟨5, 1/2, -1, 1/500, 2/25, 3, true⟩

/-- C10 (counterexample): an options record with threshold > 0 but negative
hysteresis makes analyzeDetection on empty histories report newDetected=true
from previousDetected=false — the instant-close cutoff
threshold + min(0.15, hysteresis*3) drops below the default smoothed value 0 —
refuting the claim for arbitrary options records with threshold > 0. -/
theorem c10_counterexample :
    (0 : ℚ) < optionsC10.threshold
      ∧ (analyzeDetection [] [] false optionsC10).newDetected = true := by
  constructor
  · norm_num [optionsC10]
  · norm_num [analyzeDetection, movingAverageSeries, linearRegressionSlope,
      average, jsSlice, latestRawOf, optionsC10]

/-- C10 (amended): for every options record with threshold > 0 and
hysteresis ≥ 0, and for both values of previousDetected, analyzeDetection on
empty heights and confidences returns smoothed 0, slope 0, avgConfidence null
and newDetected false: an empty observation history reports no obstacle and
forces an exit from a previously-detected state. -/
theorem c10_theorem (o : DetectionOptions) (ht : 0 < o.threshold)
    (hh : 0 ≤ o.hysteresis) (prev : Bool) :
    analyzeDetection [] [] prev o = ⟨false, 0, 0, none⟩ := by
  have hmin : (0 : ℚ) ≤ min (15/100 : ℚ) (o.hysteresis * 3) :=
    le_min (by norm_num) (by linarith)
  cases prev <;>
    simp [analyzeDetection, jsSlice, movingAverageSeries, linearRegressionSlope,
      average, latestRawOf]
  all_goals first
    | exact fun h0 => absurd h0 (by linarith)
    | refine ⟨fun h0 => absurd h0 (by linarith), by linarith⟩

/-- C10 witness: the amended theorem applied at the C1 options record with
previousDetected = true. -/
theorem c10_witness :
    ((0 : ℚ) < optionsC1.threshold ∧ (0 : ℚ) ≤ optionsC1.hysteresis)
      ∧ analyzeDetection [] [] true optionsC1 = ⟨false, 0, 0, none⟩ :=
  ⟨⟨by norm_num [optionsC1], by norm_num [optionsC1]⟩,
    c10_theorem optionsC1 (by norm_num [optionsC1]) (by norm_num [optionsC1]) true⟩

/-! ## useTensorFlowDetectionProcessor.ts: boxes, IoU, hazard filter -/

/-- An axis-aligned box in the model output order [ymin, xmin, ymax, xmax]
(normalized coordinates). -/
structure Box4 where
  ymin : ℚ
  xmin : ℚ
  ymax : ℚ
  xmax : ℚ
deriving DecidableEq

/-- Intersection area computed by calculateIoU
(useTensorFlowDetectionProcessor.ts lines 477-484): clamped overlap width
times clamped overlap height. -/
def interArea (b1 b2 : Box4) : ℚ :=
  let iw := max 0 (min b1.xmax b2.xmax - max b1.xmin b2.xmin)
  let ih := max 0 (min b1.ymax b2.ymax - max b1.ymin b2.ymin)
  iw * ih

/-- Signed box area (x1max - x1min) * (y1max - y1min) as computed in
lines 486-487. -/
def boxArea (b : Box4) : ℚ :=
  (b.xmax - b.xmin) * (b.ymax - b.ymin)

/-- Embedding of calculateIoU (useTensorFlowDetectionProcessor.ts lines
473-491): intersection over union, 0 when the union area is not positive. -/
def calculateIoU (b1 b2 : Box4) : ℚ :=
  let unionArea := boxArea b1 + boxArea b2 - interArea b1 b2
  if 0 < unionArea then interArea b1 b2 / unionArea else 0

/-- The degenerate zero box. -/
def boxZero : Box4 := ⟨0, 0, 0, 0⟩

/-- The unit box. -/
def boxUnit : Box4 := ⟨0, 0, 1, 1⟩

/-- A box disjoint from boxUnit (x-range [2,3]). -/
def boxRight : Box4 := ⟨0, 2, 1, 3⟩

/-- C6 (counterexample): for the degenerate box [0,0,0,0] the union area is 0,
so calculateIoU(box, box) returns 0, not 1.0 — the identity IoU(box,box)=1
fails for zero-area boxes. -/
theorem c6_counterexample :
    calculateIoU boxZero boxZero = 0 ∧ (0 : ℚ) ≠ 1 := by
  constructor
  · norm_num [calculateIoU, interArea, boxArea, boxZero]
  · norm_num

/-- C6 (amended): for every box with positive extent in both axes
(ymin < ymax and xmin < xmax), calculateIoU(box, box) = 1 exactly; and for
every two boxes whose clamped intersection area is zero, calculateIoU
returns 0 (for a degenerate box the self-IoU is 0, as the counterexample
shows). -/
theorem c6_theorem :
    (∀ b : Box4, b.ymin < b.ymax → b.xmin < b.xmax → calculateIoU b b = 1)
      ∧ (∀ b1 b2 : Box4, interArea b1 b2 = 0 → calculateIoU b1 b2 = 0) := by
  constructor
  · intro b h1 h2
    have hx : (0 : ℚ) < b.xmax - b.xmin := by linarith
    have hy : (0 : ℚ) < b.ymax - b.ymin := by linarith
    have hA : (0 : ℚ) < (b.xmax - b.xmin) * (b.ymax - b.ymin) := mul_pos hx hy
    simp only [calculateIoU, interArea, boxArea, min_self, max_self]
    rw [max_eq_right hx.le, max_eq_right hy.le]
    have hu : (b.xmax - b.xmin) * (b.ymax - b.ymin)
        + (b.xmax - b.xmin) * (b.ymax - b.ymin)
        - (b.xmax - b.xmin) * (b.ymax - b.ymin)
        = (b.xmax - b.xmin) * (b.ymax - b.ymin) := by ring
    rw [hu, if_pos hA]
    exact div_self hA.ne'
  · intro b1 b2 h
    simp only [calculateIoU]
    rw [h]
    split_ifs <;> simp

/-- C6 witness: the amended theorem applied to the unit box (self-IoU 1) and
to the disjoint pair boxUnit, boxRight (IoU 0). -/
theorem c6_witness :
    (boxUnit.ymin < boxUnit.ymax ∧ boxUnit.xmin < boxUnit.xmax
        ∧ interArea boxUnit boxRight = 0)
      ∧ calculateIoU boxUnit boxUnit = 1 ∧ calculateIoU boxUnit boxRight = 0 :=
  ⟨⟨by norm_num [boxUnit], by norm_num [boxUnit],
      by norm_num [interArea, boxUnit, boxRight]⟩,
    c6_theorem.1 boxUnit (by norm_num [boxUnit]) (by norm_num [boxUnit]),
    c6_theorem.2 boxUnit boxRight (by norm_num [interArea, boxUnit, boxRight])⟩

/-- Embedding of isWalkingHazard (useTensorFlowDetectionProcessor.ts lines
144-209, the minimal-filtering variant with the documented default
thresholds): sequential rejection tests on confidence, area, horizontal band,
vertical reach and aspect ratio.  The short-circuit conjunction
centerX >= 0.1 && centerX <= 0.9 is embedded as nested conditionals.  The
aspect-ratio division is only reached once area ≥ 0.002, which forces
height ≠ 0. -/
def isWalkingHazard (b : Box4) (confidence : ℚ) : Bool :=
  let height := b.ymax - b.ymin
  let width := b.xmax - b.xmin
  let centerX := (b.xmin + b.xmax) / 2
  let area := height * width
  if confidence < 1/4 then false
  else if area < 1/500 then false
  else if 9/10 < area then false
  else if 1/10 ≤ centerX then
    if centerX ≤ 9/10 then
      if 3/10 < b.ymax then
        if 5 < width / height then false else true
      else false
    else false
  else false

/-- C7: isWalkingHazard at the documented defaults returns true exactly when
all six conditions hold: confidence ≥ 0.25, area within [0.002, 0.9], centerX
within [0.1, 0.9], ymax > 0.3 and aspect ratio ≤ 5.0. -/
theorem c7_theorem :
    ∀ (b : Box4) (confidence : ℚ),
      isWalkingHazard b confidence = true
        ↔ (1/4 ≤ confidence
            ∧ 1/500 ≤ (b.ymax - b.ymin) * (b.xmax - b.xmin)
            ∧ (b.ymax - b.ymin) * (b.xmax - b.xmin) ≤ 9/10
            ∧ 1/10 ≤ (b.xmin + b.xmax) / 2
            ∧ (b.xmin + b.xmax) / 2 ≤ 9/10
            ∧ 3/10 < b.ymax
            ∧ (b.xmax - b.xmin) / (b.ymax - b.ymin) ≤ 5) := by
  intro b confidence
  simp only [isWalkingHazard]
  split_ifs with h1 h2 h3 h4 h5 h6 h7
  all_goals
    first
      | exact iff_of_true rfl
          ⟨by linarith, by linarith, by linarith, by linarith, by linarith,
            by linarith, by linarith⟩
      | refine iff_of_false (by simp) fun hr => ?_
  all_goals obtain ⟨p1, p2, p3, p4, p5, p6, p7⟩ := hr
  all_goals linarith

/-! ## useNavigationGuidance.ts -/

/-- The four steering recommendations. -/
inductive Direction where
  | straight
  | left
  | right
  | stop
deriving DecidableEq

/-- Bounding box in the {x, y, width, height} form consumed by the
navigation hook. -/
structure DetectionBox where
  x : ℚ
  y : ℚ
  width : ℚ
  height : ℚ
deriving DecidableEq

/-- A buffered detection: bounding box plus confidence. -/
structure NavDetection where
  boundingBox : DetectionBox
  confidence : ℚ
deriving DecidableEq

/-- Embedding of NavigationResult (useNavigationGuidance.ts lines 3-11). -/
structure NavigationResult where
  direction : Direction
  pathClear : Bool
  obstacleCount : Nat
  confidence : ℚ
  leftObstacles : Nat
  centerObstacles : Nat
  rightObstacles : Nat
deriving DecidableEq

/-- centerX = boundingBox.x + boundingBox.width / 2 (lines 46, 51, 56). -/
def navCenterX (d : NavDetection) : ℚ :=
  d.boundingBox.x + d.boundingBox.width / 2

/-- Embedding of analyzeDetections (useNavigationGuidance.ts lines 27-106).
The source initializes pathClear=false and sets it to true exactly in the two
centre-empty subbranches (which both choose straight), so direction and
pathClear are factored here into two conditionals with identical guards. -/
def analyzeDetections (detections : List NavDetection) : NavigationResult :=
  if detections.length = 0 then ⟨.straight, true, 0, 0, 0, 0, 0⟩
  else
    let leftObstacles := detections.filter (fun d => decide (navCenterX d < 35/100))
    let centerObstacles := detections.filter
      (fun d => decide (35/100 ≤ navCenterX d ∧ navCenterX d ≤ 65/100))
    let rightObstacles := detections.filter (fun d => decide (65/100 < navCenterX d))
    let direction : Direction :=
      if centerObstacles.length = 0 then .straight
      else if leftObstacles.length = 0 ∧ 0 < rightObstacles.length then .left
      else if rightObstacles.length = 0 ∧ 0 < leftObstacles.length then .right
      else if leftObstacles.length < rightObstacles.length then .left
      else if rightObstacles.length < leftObstacles.length then .right
      else .stop
    let pathClear : Bool := if centerObstacles.length = 0 then true else false
    let avgConfidence := (detections.map (fun d => d.confidence)).sum / detections.length
    ⟨direction, pathClear, detections.length, avgConfidence,
      leftObstacles.length, centerObstacles.length, rightObstacles.length⟩

/-- A detection whose centre x is 0.15, in the left zone. -/
def navDetLeft : NavDetection := ⟨⟨1/10, 1/2, 1/10, 1/5⟩, 9/10⟩

/-- C5 (counterexample): a non-empty buffer whose only detection has
centerX = 0.15 < 0.35 (left zone, centre zone empty) yields direction
straight, not right: with the centre zone clear the code always proceeds
straight, whatever the side zones hold. -/
theorem c5_counterexample :
    navCenterX navDetLeft < 35/100
      ∧ (analyzeDetections [navDetLeft]).direction = Direction.straight
      ∧ Direction.straight ≠ Direction.right := by
  refine ⟨by norm_num [navCenterX, navDetLeft], ?_, by decide⟩
  norm_num [analyzeDetections, navCenterX, navDetLeft]

/-- C5 (amended): on an empty buffer analyzeDetections returns direction
straight with pathClear true; on a non-empty buffer in which every
detection's centre x is < 0.35 (centre zone empty) it returns direction
straight (not right: a clear centre path always yields straight); and
pathClear is true exactly when the centre zone is empty. -/
theorem c5_theorem :
    analyzeDetections [] = ⟨.straight, true, 0, 0, 0, 0, 0⟩
      ∧ (∀ dets : List NavDetection, dets ≠ []
          → (∀ d ∈ dets, navCenterX d < 35/100)
          → (analyzeDetections dets).direction = Direction.straight)
      ∧ (∀ dets : List NavDetection,
          ((analyzeDetections dets).pathClear = true
            ↔ (analyzeDetections dets).centerObstacles = 0)) := by
  refine ⟨rfl, ?_, ?_⟩
  · intro dets hne hall
    have hlen : ¬(dets.length = 0) := by
      simpa [List.length_eq_zero] using hne
    have hc : dets.filter
        (fun d => decide (35/100 ≤ navCenterX d ∧ navCenterX d ≤ 65/100)) = [] := by
      refine List.filter_eq_nil_iff.mpr fun d hd => ?_
      have := hall d hd
      simp only [decide_eq_true_eq, not_and]
      intro h1
      linarith
    simp only [analyzeDetections, if_neg hlen]
    rw [hc]
    simp
  · intro dets
    by_cases hlen : dets.length = 0
    · simp [analyzeDetections, hlen]
    · by_cases hc : (dets.filter
          (fun d => decide (35/100 ≤ navCenterX d ∧ navCenterX d ≤ 65/100))).length = 0 <;>
        simp [analyzeDetections, hlen, hc]

/-- C5 witness: the amended theorem applied to the singleton left-zone buffer
(direction straight) and to that same buffer for the pathClear equivalence. -/
theorem c5_witness :
    (([navDetLeft] : List NavDetection) ≠ []
        ∧ ∀ d ∈ ([navDetLeft] : List NavDetection), navCenterX d < 35/100)
      ∧ (analyzeDetections [navDetLeft]).direction = Direction.straight
      ∧ ((analyzeDetections [navDetLeft]).pathClear = true
          ↔ (analyzeDetections [navDetLeft]).centerObstacles = 0) :=
  ⟨⟨by simp, by simp [navCenterX, navDetLeft]; norm_num⟩,
    c5_theorem.2.1 [navDetLeft] (by simp)
      (by simp [navCenterX, navDetLeft]; norm_num),
    c5_theorem.2.2 [navDetLeft]⟩

/-! ## useObstacleDetector.ts: the log flush -/

/-- Embedding of a log entry (useObstacleDetector.ts lines 190-198). -/
structure LogEvent where
  ts : Int
  height : ℚ
  confidence : Option ℚ
  centerX : Option ℚ
  smoothed : ℚ
  slope : ℚ
  detected : Bool
deriving DecidableEq

/-- Outcome of the awaited fetch in sendLogs: a JavaScript fetch promise
resolves with a Response for every completed HTTP exchange — whatever the
status code — and rejects only on a transport failure.  The code never
inspects the response object, so its behaviour depends only on which of these
happened. -/
inductive FetchOutcome where
  | resolved (status : Nat)
  | transportError
deriving DecidableEq

/-- Embedding of sendLogs (useObstacleDetector.ts lines 94-113) in flush mode
(no explicit events argument, so toSend is the batch taken from the head of
the buffer and the splice on success removes it).  Returns the new buffer and
the success flag of the returned record. -/
def sendLogs (hasUrl : Bool) (batchSize : Nat) (buffer : List LogEvent)
    (outcome : FetchOutcome) : List LogEvent × Bool :=
  if hasUrl = false then (buffer, false)
  else
    let toSend := buffer.take batchSize
    if toSend.length = 0 then (buffer, true)
    else
      match outcome with
      | .resolved _ => (buffer.drop toSend.length, true)
      | .transportError => (buffer, false)

/-- A sample buffered log entry. -/
def logEv : LogEvent := ⟨0, 1/2, none, none, 1/2, 0, true⟩

/-- C9 (counterexample): a flush whose fetch resolves with HTTP status 500 — a
non-success response — still removes the delivered entries from the buffer and
reports success, because sendLogs never inspects the response status; the
claimed no-op on non-success responses does not hold. -/
theorem c9_counterexample :
    (sendLogs true 20 [logEv] (.resolved 500)).1 = []
      ∧ (sendLogs true 20 [logEv] (.resolved 500)).2 = true
      ∧ (500 : Nat) ≠ 200 := by
  refine ⟨?_, ?_, by decide⟩ <;> simp [sendLogs]

/-- C9 (amended): for every flush of the event logger, if the POST completes
with any HTTP response whatsoever (success or not) the min(batchSize, length)
oldest entries are removed from the head of the buffer, and only a transport
failure (a rejected fetch) leaves the buffer untouched for the next flush
attempt; with no sink URL configured the flush is also a no-op. -/
theorem c9_theorem :
    ∀ (batchSize : Nat) (buffer : List LogEvent) (s : Nat),
      (sendLogs true batchSize buffer (.resolved s)).1
          = buffer.drop (min batchSize buffer.length)
        ∧ (sendLogs true batchSize buffer .transportError).1 = buffer
        ∧ ∀ outcome, (sendLogs false batchSize buffer outcome).1 = buffer := by
  intro batchSize buffer s
  refine ⟨?_, ?_, fun outcome => ?_⟩
  · simp only [sendLogs, List.length_take]
    rw [if_neg (by simp : ¬(true = false))]
    by_cases h : min batchSize buffer.length = 0 <;> simp [h]
  · simp only [sendLogs, List.length_take]
    rw [if_neg (by simp : ¬(true = false))]
    by_cases h : min batchSize buffer.length = 0 <;> simp [h]
  · simp [sendLogs]

/-! ## useTensorFlowDetectionProcessor.ts (closest-obstacle variant, lines
232-374): the proximity reporter's stability gate -/

/-- distance = max(0.3, 2.0 - height*1.5) (heightToDistance, lines 252-256 and
494-498). -/
def heightToDistance (h : ℚ) : ℚ :=
  max (3/10) (2 - h * (3/2))

/-- JavaScript Math.round: floor(x + 1/2), rounding half-values toward
positive infinity. -/
def jsRound (q : ℚ) : Int :=
  ⌊q + 1/2⌋

/-- A parsed detection of the closest-obstacle variant (lines 265-270). -/
structure SimpleDet where
  box : Box4
  confidence : ℚ
  height : ℚ
  area : ℚ
deriving DecidableEq

/-- The stability-gate refs of the closest-obstacle variant (lines 243-246),
all initialized to 0. -/
structure SimpleState where
  lastDetectionTime : Int
  lastReportedDistance : Int
  stableDetectionCount : Int
  currentStableDistance : Int
deriving DecidableEq

/-- sortedByCloseness[0] (lines 310-311): the stable descending sort by height
keeps the first-encountered maximum in front. -/
def closestOf (d : SimpleDet) (rest : List SimpleDet) : SimpleDet :=
  rest.foldl (fun c cur => if c.height < cur.height then cur else c) d

/-- The rounded centimetre distance the frame reports for its closest
detection (lines 314-315). -/
def frameDistanceCm (d : SimpleDet) (rest : List SimpleDet) : Int :=
  jsRound (heightToDistance (closestOf d rest).height * 100)

/-- One frame of the closest-obstacle processor's steps 2 (stability
filtering) and emission (lines 307-358), given the already-filtered
detections of the frame: updates the stability counters, then emits
onDetection only when the count reached 3, the change is meaningful (>= 20 cm
from the last report, or no prior report), and the cooldown elapsed.  The
returned Bool is whether onDetection fired.  An empty frame resets the
stability tracking (lines 354-358). -/
def simpleStep (cooldownMs : Int) (st : SimpleState) (dets : List SimpleDet)
    (now : Int) : SimpleState × Bool :=
  match dets with
  | [] => (⟨st.lastDetectionTime, st.lastReportedDistance, 0, 0⟩, false)
  | d :: rest =>
    let distanceCm := frameDistanceCm d rest
    let distanceDiff := |distanceCm - st.currentStableDistance|
    let cnt : Int := if distanceDiff ≤ 10 then st.stableDetectionCount + 1 else 1
    let stableDist : Int := if distanceDiff ≤ 10 then st.currentStableDistance else distanceCm
    if (3 ≤ cnt ∧ (20 ≤ |distanceCm - st.lastReportedDistance| ∨ st.lastReportedDistance = 0))
        ∧ cooldownMs ≤ now - st.lastDetectionTime then
      (⟨now, distanceCm, cnt, stableDist⟩, true)
    else
      (⟨st.lastDetectionTime, st.lastReportedDistance, cnt, stableDist⟩, false)

/-- C4: the proximity reporter's stability gate.  (a) Whenever the frame's
distance estimate differs from the current stable estimate by more than the
10 cm epsilon, the consecutive-stable counter resets to 1 and the stable
estimate is replaced by the new estimate.  (b) onDetection fires only when
the accumulated consecutive-stable count is at least 3 AND the new distance
differs from the last reported distance by at least 20 cm or no prior report
exists (sentinel 0); in particular fewer than three consecutive stable frames
never fire. -/
theorem c4_theorem :
    ∀ (cooldownMs : Int) (st : SimpleState) (d : SimpleDet)
      (rest : List SimpleDet) (now : Int),
      (10 < |frameDistanceCm d rest - st.currentStableDistance| →
          (simpleStep cooldownMs st (d :: rest) now).1.stableDetectionCount = 1
          ∧ (simpleStep cooldownMs st (d :: rest) now).1.currentStableDistance
              = frameDistanceCm d rest)
      ∧ ((simpleStep cooldownMs st (d :: rest) now).2 = true →
          3 ≤ (simpleStep cooldownMs st (d :: rest) now).1.stableDetectionCount
          ∧ (20 ≤ |frameDistanceCm d rest - st.lastReportedDistance|
              ∨ st.lastReportedDistance = 0)) := by
  intro cooldownMs st d rest now
  simp only [simpleStep]
  split_ifs with hdle hcond hcond2
  · exact ⟨fun hdiff => absurd hdle (not_le.mpr hdiff),
      fun _ => ⟨hcond.1.1, hcond.1.2⟩⟩
  · exact ⟨fun hdiff => absurd hdle (not_le.mpr hdiff),
      fun hfalse => by cases hfalse⟩
  · exact ⟨fun _ => ⟨rfl, rfl⟩, fun _ => ⟨hcond2.1.1, hcond2.1.2⟩⟩
  · exact ⟨fun _ => ⟨rfl, rfl⟩, fun hfalse => by cases hfalse⟩

/-- The concrete detection used by the C4 witness: height 0.5, so
distance = max(0.3, 1.25) = 1.25 and distanceCm = 125. -/
def simpleDet : SimpleDet := ⟨⟨2/5, 2/5, 9/10, 3/5⟩, 7/10, 1/2, 1/10⟩

/-- C4 witness: (a) from the initial stable estimate 0, the 125 cm frame
resets the counter to 1 and replaces the stable estimate; (b) from a state
with two accumulated stable frames at 125 cm and no prior report, the same
frame fires onDetection with count 3. -/
theorem c4_witness :
    (10 < |frameDistanceCm simpleDet [] - (⟨0, 0, 5, 0⟩ : SimpleState).currentStableDistance|
        ∧ (simpleStep 150 ⟨0, 0, 5, 0⟩ [simpleDet] 1000).1.stableDetectionCount = 1
        ∧ (simpleStep 150 ⟨0, 0, 5, 0⟩ [simpleDet] 1000).1.currentStableDistance
            = frameDistanceCm simpleDet [])
      ∧ ((simpleStep 150 ⟨0, 0, 2, 125⟩ [simpleDet] 1000).2 = true
        ∧ 3 ≤ (simpleStep 150 ⟨0, 0, 2, 125⟩ [simpleDet] 1000).1.stableDetectionCount
        ∧ (20 ≤ |frameDistanceCm simpleDet [] - (⟨0, 0, 2, 125⟩ : SimpleState).lastReportedDistance|
            ∨ (⟨0, 0, 2, 125⟩ : SimpleState).lastReportedDistance = 0)) := by
  have hcm : frameDistanceCm simpleDet [] = 125 := by
    norm_num [frameDistanceCm, closestOf, heightToDistance, jsRound, simpleDet]
  have hdiff : 10 < |frameDistanceCm simpleDet []
      - (⟨0, 0, 5, 0⟩ : SimpleState).currentStableDistance| := by
    rw [hcm]; norm_num
  have hfire : (simpleStep 150 ⟨0, 0, 2, 125⟩ [simpleDet] 1000).2 = true := by
    norm_num [simpleStep, hcm]
  exact ⟨⟨hdiff, ((c4_theorem 150 ⟨0, 0, 5, 0⟩ simpleDet [] 1000).1 hdiff).1,
      ((c4_theorem 150 ⟨0, 0, 5, 0⟩ simpleDet [] 1000).1 hdiff).2⟩,
    ⟨hfire, ((c4_theorem 150 ⟨0, 0, 2, 125⟩ simpleDet [] 1000).2 hfire).1,
      ((c4_theorem 150 ⟨0, 0, 2, 125⟩ simpleDet [] 1000).2 hfire).2⟩⟩


/-! ## useTensorFlowDetectionProcessor.ts (canonical IoU-tracking variant,
lines 375-641) -/

/-- Embedding of the spatial isWalkingHazard of the IoU-tracking variant
(lines 379-424): exclusion rules for noise, sky, horizon bands and full-width
spans, then inclusion rules for ground-level, large or high-confidence
objects on the walking path.  (The aspect-ratio division at height 0 differs
from JS Infinity, but a zero-height box has area 0 and is rejected by every
inclusion rule in both semantics.) -/
def isWalkingHazardSpatial (b : Box4) (confidence : ℚ) : Bool :=
  let height := b.ymax - b.ymin
  let width := b.xmax - b.xmin
  let centerX := (b.xmin + b.xmax) / 2
  let centerY := (b.ymin + b.ymax) / 2
  let area := height * width
  let aspectRatio := width / height
  if area < 1/200 ∧ confidence < 2/5 then false
  else if b.ymax < 1/5 ∧ area < 1/10 then false
  else if 6 < aspectRatio ∧ height < 2/25 ∧ 3/5 < centerY then false
  else if 9/10 < width ∧ 4/5 < centerY then false
  else if (1/2 < b.ymax ∧ 1/500 < area ∧ |centerX - 1/2| < 2/5) ∧ 3/5 < confidence then true
  else if 1/20 < area ∧ |centerX - 1/2| < 2/5 ∧ 1/2 < confidence then true
  else if 4/5 < confidence ∧ 1/100 < area ∧ |centerX - 1/2| < 2/5 then true
  else false

/-- Embedding of TrackedTarget (lines 431-440).  The string tracking ids
`target-N` are embedded as the acquisition frame number N; the temporary
per-detection ids of step 1 are never observable (they are overwritten both
on match and on acquisition) and are embedded as 0. -/
structure TrackedTarget where
  box : Box4
  confidence : ℚ
  height : ℚ
  centerX : ℚ
  centerY : ℚ
  area : ℚ
  lastSeen : Int
  trackingId : Int
deriving DecidableEq

/-- The processor's persistent refs (lines 463-467). -/
structure TrackState where
  lastDetectionTime : Int
  currentTarget : Option TrackedTarget
  lastReportedDistance : Option ℚ
deriving DecidableEq

/-- The two output channels: onDetection (primary) and onFallbackDetection. -/
inductive TrackEvent where
  | primary (distance confidence : ℚ)
  | fallback (distance confidence : ℚ)
deriving DecidableEq

/-- Step 1 (lines 503-544): keep the candidates at or above
CONFIDENCE_THRESHOLD = minConfidence * 0.7 that pass the spatial hazard
filter, and derive the geometric fields. -/
def frameDetections (minConfidence : ℚ) (cands : List (Box4 × ℚ))
    (frameCount : Int) : List TrackedTarget :=
  cands.filterMap (fun p =>
    if p.2 < minConfidence * (7/10) then none
    else if isWalkingHazardSpatial p.1 p.2 = false then none
    else some
      { box := p.1, confidence := p.2, height := p.1.ymax - p.1.ymin,
        centerX := (p.1.xmin + p.1.xmax) / 2,
        centerY := (p.1.ymin + p.1.ymax) / 2,
        area := (p.1.ymax - p.1.ymin) * (p.1.xmax - p.1.xmin),
        lastSeen := frameCount, trackingId := 0 })

/-- The running best IoU of the matching fold, 0 before any match
(line 553). -/
def bestIoUOf (acc : Option (TrackedTarget × ℚ)) : ℚ :=
  match acc with
  | none => 0
  | some p => p.2

/-- The matching fold of step 2 (lines 552-561): a detection becomes the best
match when its IoU with the target exceeds both the 0.3 threshold and the
best IoU so far (strict comparisons, so the first of equals wins). -/
def bestMatch (target : TrackedTarget) (dets : List TrackedTarget)
    : Option (TrackedTarget × ℚ) :=
  dets.foldl (fun acc d =>
    let iou := calculateIoU target.box d.box
    if 3/10 < iou ∧ bestIoUOf acc < iou then some (d, iou) else acc) none

/-- Step 3 acquisition (lines 589-602): the detection with greatest height
(first of equals), given the fresh tracking id target-frameCount. -/
def acquireClosest (dets : List TrackedTarget) (frameCount : Int)
    : Option TrackedTarget :=
  match dets with
  | [] => none
  | d :: rest =>
    some { (rest.foldl (fun c cur => if c.height < cur.height then cur else c) d) with
            trackingId := frameCount }

/-- Result of steps 2 and 3: the obstacle tracked this frame (if any), the new
currentTarget ref, and the new lastReportedDistance ref (cleared on target
loss, line 579). -/
structure Step23Out where
  tracked : Option TrackedTarget
  target : Option TrackedTarget
  lastReported : Option ℚ
deriving DecidableEq

/-- Steps 2 and 3 (lines 546-602): match the current target by IoU; on a
match, update it keeping its id; with no match, persist the stale target up
to the 30-frame loss budget, else drop it (clearing the distance memory) and
fall through to acquisition, which picks the greatest-height detection. -/
def step23 (st : TrackState) (dets : List TrackedTarget) (frameCount : Int)
    : Step23Out :=
  match st.currentTarget with
  | some target =>
    match bestMatch target dets with
    | some m =>
      let t := { m.1 with trackingId := target.trackingId, lastSeen := frameCount }
      ⟨some t, some t, st.lastReportedDistance⟩
    | none =>
      if 30 < frameCount - target.lastSeen then
        match acquireClosest dets frameCount with
        | some t => ⟨some t, some t, none⟩
        | none => ⟨none, none, none⟩
      else ⟨some target, some target, st.lastReportedDistance⟩
  | none =>
    match acquireClosest dets frameCount with
    | some t => ⟨some t, some t, st.lastReportedDistance⟩
    | none => ⟨none, none, st.lastReportedDistance⟩

/-- distanceChanged (line 610): true when no prior report exists or the
distance moved by at least MIN_DISTANCE_CHANGE = 0.1. -/
def distanceChangedB (lastReported : Option ℚ) (distance : ℚ) : Bool :=
  match lastReported with
  | none => true
  | some ld => if 1/10 ≤ |distance - ld| then true else false

/-- One full frame of the IoU-tracking processor (steps 2-4, lines 546-638):
after tracking, a tracked obstacle whose distance changed is emitted on the
primary channel when the cooldown has elapsed (updating lastDetectionTime and
lastReportedDistance) and on the fallback channel otherwise (state
unchanged); an unchanged distance is suppressed. -/
def trackStep (cooldownMs : Int) (st : TrackState) (dets : List TrackedTarget)
    (frameCount now : Int) : TrackState × Option TrackEvent :=
  let s := step23 st dets frameCount
  match s.tracked with
  | some t =>
    let distance := heightToDistance t.height
    if distanceChangedB s.lastReported distance = true then
      if cooldownMs ≤ now - st.lastDetectionTime then
        (⟨now, s.target, some distance⟩, some (.primary distance t.confidence))
      else
        (⟨st.lastDetectionTime, s.target, s.lastReported⟩,
          some (.fallback distance t.confidence))
    else (⟨st.lastDetectionTime, s.target, s.lastReported⟩, none)
  | none => (⟨st.lastDetectionTime, s.target, s.lastReported⟩, none)

/-- A frame of input to the processor: decoded candidate (box, score) pairs,
the frame counter, and the Date.now() wall-clock value. -/
structure Frame3 where
  cands : List (Box4 × ℚ)
  frameCount : Int
  now : Int

/-- Run the processor over a list of frames, recording each frame's wall
clock and emitted event. -/
def trackRun (cooldownMs : Int) (minConfidence : ℚ) (st : TrackState)
    : List Frame3 → List (Int × Option TrackEvent)
  | [] => []
  | f :: rest =>
    let r := trackStep cooldownMs st (frameDetections minConfidence f.cands f.frameCount)
      f.frameCount f.now
    (f.now, r.2) :: trackRun cooldownMs minConfidence r.1 rest

/-- The wall-clock times of the primary (onDetection) emissions of a run. -/
def primTimes : List (Int × Option TrackEvent) → List Int
  | [] => []
  | (t, some (TrackEvent.primary _ _)) :: rest => t :: primTimes rest
  | _ :: rest => primTimes rest

/-- Each step either leaves lastDetectionTime unchanged and emits nothing on
the primary channel, or emits on the primary channel having seen the cooldown
elapsed, stamping lastDetectionTime with the frame's clock. -/
theorem trackStep_lastTime_cases (c : Int) (st : TrackState)
    (dets : List TrackedTarget) (f now : Int) :
    ((trackStep c st dets f now).1.lastDetectionTime = st.lastDetectionTime
        ∧ ∀ d cf, (trackStep c st dets f now).2 ≠ some (TrackEvent.primary d cf))
      ∨ (c ≤ now - st.lastDetectionTime
        ∧ (trackStep c st dets f now).1.lastDetectionTime = now
        ∧ ∃ d cf, (trackStep c st dets f now).2 = some (TrackEvent.primary d cf)) := by
  simp only [trackStep]
  rcases hT : (step23 st dets f).tracked with _ | t
  · exact Or.inl ⟨rfl, fun d cf h => by simp at h⟩
  · dsimp only
    split_ifs with h1 h2
    · exact Or.inr ⟨h2, rfl, _, _, rfl⟩
    · exact Or.inl ⟨rfl, fun d cf h => by simp at h⟩
    · exact Or.inl ⟨rfl, fun d cf h => by simp at h⟩

/-- Every primary emission of a run happens at least cooldownMs after the
incoming lastDetectionTime, and the primary emissions of a run are pairwise
at least cooldownMs apart. -/
theorem primTimes_facts (c : Int) (hc : 0 ≤ c) (mc : ℚ) :
    ∀ (frames : List Frame3) (st : TrackState),
      (∀ t ∈ primTimes (trackRun c mc st frames), st.lastDetectionTime + c ≤ t)
        ∧ (primTimes (trackRun c mc st frames)).Pairwise
            (fun a b => c ≤ b - a) := by
  intro frames
  induction frames with
  | nil => intro st; simp [trackRun, primTimes]
  | cons f rest ih =>
    intro st
    simp only [trackRun]
    rcases trackStep_lastTime_cases c st (frameDetections mc f.cands f.frameCount)
        f.frameCount f.now with ⟨hlast, hnp⟩ | ⟨hcool, hlast, d, cf, hev⟩
    · have hred : primTimes ((f.now,
            (trackStep c st (frameDetections mc f.cands f.frameCount)
              f.frameCount f.now).2) ::
            trackRun c mc (trackStep c st (frameDetections mc f.cands f.frameCount)
              f.frameCount f.now).1 rest)
          = primTimes (trackRun c mc
              (trackStep c st (frameDetections mc f.cands f.frameCount)
                f.frameCount f.now).1 rest) := by
        rcases hev2 : (trackStep c st (frameDetections mc f.cands f.frameCount)
            f.frameCount f.now).2 with _ | ev
        · simp [primTimes]
        · cases ev with
          | primary d2 cf2 => exact absurd hev2 (hnp d2 cf2)
          | fallback d2 cf2 => simp [primTimes]
      rw [hred]
      refine ⟨fun t ht => ?_, (ih _).2⟩
      have h2 := (ih _).1 t ht
      rw [hlast] at h2
      exact h2
    · have hred : primTimes ((f.now,
            (trackStep c st (frameDetections mc f.cands f.frameCount)
              f.frameCount f.now).2) ::
            trackRun c mc (trackStep c st (frameDetections mc f.cands f.frameCount)
              f.frameCount f.now).1 rest)
          = f.now :: primTimes (trackRun c mc
              (trackStep c st (frameDetections mc f.cands f.frameCount)
                f.frameCount f.now).1 rest) := by
        rw [hev]
        simp [primTimes]
      rw [hred]
      refine ⟨fun t ht => ?_, ?_⟩
      · rcases List.mem_cons.mp ht with rfl | htail
        · linarith
        · have h2 := (ih _).1 t htail
          rw [hlast] at h2
          linarith
      · refine List.Pairwise.cons (fun t htail => ?_) (ih _).2
        have h2 := (ih _).1 t htail
        rw [hlast] at h2
        linarith


/-- Fresh processor state: lastDetectionTime 0, no target, no reported
distance. -/
def trackInit : TrackState := ⟨0, none, none⟩

/-- First C3 frame: one hazard candidate of height 0.5 and confidence 0.7 at
t = 1000 ms. -/
def frameA : Frame3 := ⟨[(⟨2/5, 2/5, 9/10, 3/5⟩, 7/10)], 1, 1000⟩

/-- Second C3 frame, 50 ms later: the same obstacle grown to height 0.6
(IoU 5/6 with the first box, distance change 0.15 m ≥ 0.1). -/
def frameB : Frame3 := ⟨[(⟨3/10, 2/5, 9/10, 3/5⟩, 7/10)], 2, 1050⟩

/-- The hazard-filtered detection of frameA (temporary tracking id 0). -/
def detA0 : TrackedTarget := ⟨⟨2/5, 2/5, 9/10, 3/5⟩, 7/10, 1/2, 1/2, 13/20, 1/10, 1, 0⟩

/-- The hazard-filtered detection of frameB (temporary tracking id 0). -/
def detB0 : TrackedTarget := ⟨⟨3/10, 2/5, 9/10, 3/5⟩, 7/10, 3/5, 1/2, 3/5, 3/25, 2, 0⟩

/-- The target acquired from frameA (tracking id = acquisition frame 1). -/
def targetA : TrackedTarget := ⟨⟨2/5, 2/5, 9/10, 3/5⟩, 7/10, 1/2, 1/2, 13/20, 1/10, 1, 1⟩

/-- The processor state after frameA: lastDetectionTime 1000, tracking
targetA, last reported distance 1.25 m. -/
def st1 : TrackState := ⟨1000, some targetA, some (5/4)⟩

/-- The updated target matched in frameB (same tracking id, lastSeen 2). -/
def targetB : TrackedTarget := ⟨⟨3/10, 2/5, 9/10, 3/5⟩, 7/10, 3/5, 1/2, 3/5, 3/25, 2, 1⟩

/-- The hazard-filtered detections of frameB. -/
def detsB : List TrackedTarget := frameDetections (2/5) frameB.cands 2

/-- C3: in the canonical IoU-tracking processor, (a) the primary onDetection
emissions of any run are pairwise at least cooldownMs apart (for any
cooldownMs ≥ 0), because an emission requires the cooldown to have elapsed
since lastDetectionTime and restamps it; (b) a frame whose tracked obstacle
passes the distance-changed gate but arrives before the cooldown elapsed is
delivered on the fallback channel, not dropped; (c) concretely, two
otherwise-valid detections 50 ms apart with cooldownMs = 150 produce exactly
one onDetection and one onFallbackDetection. -/
theorem c3_theorem :
    (∀ c : Int, 0 ≤ c → ∀ (mc : ℚ) (frames : List Frame3) (st : TrackState),
        (primTimes (trackRun c mc st frames)).Pairwise (fun a b => c ≤ b - a))
      ∧ (∀ (c : Int) (st : TrackState) (dets : List TrackedTarget)
          (f now : Int) (t : TrackedTarget),
          (step23 st dets f).tracked = some t →
          distanceChangedB (step23 st dets f).lastReported
            (heightToDistance t.height) = true →
          now - st.lastDetectionTime < c →
          (trackStep c st dets f now).2
            = some (TrackEvent.fallback (heightToDistance t.height) t.confidence))
      ∧ trackRun 150 (2/5) trackInit [frameA, frameB]
          = [(1000, some (TrackEvent.primary (5/4) (7/10))),
             (1050, some (TrackEvent.fallback (11/10) (7/10)))] := by
  refine ⟨fun c hc mc frames st => (primTimes_facts c hc mc frames st).2,
    ?_, ?_⟩
  · intro c st dets f now t ht hch hlt
    simp only [trackStep, ht]
    rw [if_pos hch, if_neg (not_le.mpr hlt)]
  · have hdetsA : frameDetections (2/5) [(⟨2/5, 2/5, 9/10, 3/5⟩, 7/10)] 1
        = [detA0] := by
      norm_num [frameDetections, isWalkingHazardSpatial, detA0,
        List.filterMap_cons]
    have hdetsB : frameDetections (2/5) [(⟨3/10, 2/5, 9/10, 3/5⟩, 7/10)] 2
        = [detB0] := by
      norm_num [frameDetections, isWalkingHazardSpatial, detB0,
        List.filterMap_cons]
    have hA : trackStep 150 trackInit [detA0] 1 1000
        = (st1, some (TrackEvent.primary (5/4) (7/10))) := by
      norm_num [trackStep, step23, acquireClosest, trackInit, heightToDistance,
        distanceChangedB, st1, targetA, detA0]
    have hB : trackStep 150 st1 [detB0] 2 1050
        = (⟨1000, some targetB, some (5/4)⟩,
            some (TrackEvent.fallback (11/10) (7/10))) := by
      norm_num [trackStep, step23, bestMatch, bestIoUOf, calculateIoU, interArea,
        boxArea, st1, targetA, targetB, detB0, heightToDistance, distanceChangedB,
        abs_lt, le_abs]
    simp only [trackRun, frameA, frameB, hdetsA, hdetsB, hA, hB]

/-- C3 witness: part (a) applied to the concrete two-frame run with
cooldownMs = 150, and part (b) applied to frameB arriving 50 ms after the
frameA report. -/
theorem c3_witness :
    ((0 : Int) ≤ 150
        ∧ (step23 st1 detsB 2).tracked = some targetB
        ∧ distanceChangedB (step23 st1 detsB 2).lastReported
            (heightToDistance targetB.height) = true
        ∧ 1050 - st1.lastDetectionTime < 150)
      ∧ (primTimes (trackRun 150 (2/5) trackInit [frameA, frameB])).Pairwise
          (fun a b => (150 : Int) ≤ b - a)
      ∧ (trackStep 150 st1 detsB 2 1050).2
          = some (TrackEvent.fallback (heightToDistance targetB.height)
              targetB.confidence) := by
  have hdB : detsB = [detB0] := by
    norm_num [detsB, frameB, frameDetections, isWalkingHazardSpatial, detB0,
      List.filterMap_cons]
  have h1 : (step23 st1 detsB 2).tracked = some targetB := by
    rw [hdB]
    norm_num [step23, st1, bestMatch, bestIoUOf, calculateIoU, interArea, boxArea,
      targetA, targetB, detB0]
  have h2 : distanceChangedB (step23 st1 detsB 2).lastReported
      (heightToDistance targetB.height) = true := by
    rw [hdB]
    norm_num [step23, st1, bestMatch, bestIoUOf, calculateIoU, interArea, boxArea,
      targetA, targetB, detB0, distanceChangedB, heightToDistance, abs_lt, le_abs]
  have h3 : 1050 - st1.lastDetectionTime < 150 := by norm_num [st1]
  exact ⟨⟨by norm_num, h1, h2, h3⟩,
    c3_theorem.1 150 (by norm_num) (2/5) [frameA, frameB] trackInit,
    c3_theorem.2.1 150 st1 detsB 2 1050 targetB h1 h2 h3⟩


/-! ## parseDetections.ts: the detection normalizer

The input is an arbitrary JavaScript value, embedded as a rational number, a
(nested) array, or `other` — the latter standing for the non-numeric,
non-array values (null, undefined, objects, strings).  A JS number that is
NaN is embedded as Option ℚ = none wherever arithmetic results flow
(arithmetic on a non-coercible value yields NaN, comparisons with NaN are
false, and Math.min/Math.max propagate NaN). -/

/-- A JavaScript value reaching the normalizer. -/
inductive JSVal where
  | num (q : ℚ)
  | arr (elems : List JSVal)
  | other

/-- The chunking loop of extractBoxes (parseDetections.ts lines 18-21): rows
of four consecutive entries; the length is a multiple of four whenever this
runs. -/
def chunk4 : List JSVal → List JSVal
  | a :: b :: c :: d :: rest => JSVal.arr [a, b, c, d] :: chunk4 rest
  | _ => []

/-- extractBoxes (parseDetections.ts lines 14-37): a flat numeric-headed array
with length a positive multiple of 4 is chunked into rows; an array headed by
a 4-element numeric-headed row is returned whole ([K,4] form).  The inner
[1,K,4] branch of the source (line 32) is unreachable — it requires
candidate[0][0] to be both a number and an array — and [1,K,4] inputs are
instead handled by the caller's second pass. -/
def extractBoxes : JSVal → Option (List JSVal)
  | JSVal.arr (JSVal.num q :: rest) =>
    if (rest.length + 1) % 4 = 0 ∧ 4 ≤ rest.length + 1
    then some (chunk4 (JSVal.num q :: rest)) else none
  | JSVal.arr (JSVal.arr (JSVal.num q :: ys) :: rest) =>
    if ys.length + 1 = 4
    then some (JSVal.arr (JSVal.num q :: ys) :: rest) else none
  | _ => none

/-- extractScores (parseDetections.ts lines 39-44): a numeric-headed array, or
the numeric-headed first row of a nested array. -/
def extractScores : JSVal → Option (List JSVal)
  | JSVal.arr (JSVal.num q :: rest) => some (JSVal.num q :: rest)
  | JSVal.arr (JSVal.arr (JSVal.num q :: ys) :: _) => some (JSVal.num q :: ys)
  | _ => none

/-- First successful extraction over the top-level entries (the loop in
lines 46-50 keeps the first hit of each extractor independently). -/
def firstSome (f : JSVal → Option (List JSVal)) : List JSVal → Option (List JSVal)
  | [] => none
  | e :: rest =>
    match f e with
    | some r => some r
    | none => firstSome f rest

/-- The second pass (lines 53-67): for the first entry that is an array whose
first element is an array, try extractBoxes on that first element; keep
scanning on failure. -/
def secondPassBoxes : List JSVal → Option (List JSVal)
  | [] => none
  | JSVal.arr (x :: _) :: rest =>
    match x with
    | JSVal.arr _ =>
      (match extractBoxes x with
        | some r => some r
        | none => secondPassBoxes rest)
    | _ => secondPassBoxes rest
  | _ :: rest => secondPassBoxes rest

/-- The scores-length fix-up scan (lines 72-80): the first extractScores hit
whose length equals the box count. -/
def matchingScores (n : Nat) : List JSVal → Option (List JSVal)
  | [] => none
  | e :: rest =>
    match extractScores e with
    | some s2 => if s2.length = n then some s2 else matchingScores n rest
    | none => matchingScores n rest

/-- JavaScript numeric coercion of the values that reach arithmetic here:
numbers are themselves, [] coerces to 0, a singleton array coerces as its
element, longer arrays and non-numeric values give NaN (none). -/
def jsToNum : JSVal → Option ℚ
  | JSVal.num q => some q
  | JSVal.arr [] => some 0
  | JSVal.arr [v] => jsToNum v
  | JSVal.arr (_ :: _ :: _) => none
  | JSVal.other => none

/-- scoresArr[i] ?? 0 as it enters the comparison s > best (line 87):
null/undefined fall back to 0, everything else coerces. -/
def scoreVal : JSVal → Option ℚ
  | JSVal.other => some 0
  | v => jsToNum v

/-- The best-score scan (lines 82-94): best starts at -Infinity (beaten by
any real score), NaN comparisons are false, ties keep the lower index,
bestIdx starts at 0. -/
def bestIndex (scores boxes : List JSVal) : Nat :=
  ((List.range (min scores.length boxes.length)).foldl
    (fun acc i =>
      match scoreVal (scores.getD i JSVal.other), acc.2 with
      | some x, none => (i, some x)
      | some x, some b => if b < x then (i, some x) else acc
      | none, _ => acc)
    ((0, none) : Nat × Option ℚ)).1

/-- box[i]: indexing an array pads with undefined; indexing a non-array gives
undefined. -/
def jsIndex : JSVal → Nat → JSVal
  | JSVal.arr l, i => l.getD i JSVal.other
  | _, _ => JSVal.other

/-- The guard !box || box.length < 4 (line 97), negated: an array passes when
it has at least 4 elements; a nonzero number passes because its length is
undefined and undefined < 4 is false; 0, null and undefined are falsy and
fail. -/
def jsBoxOk : JSVal → Bool
  | JSVal.arr l => decide (4 ≤ l.length)
  | JSVal.num q => decide (q ≠ 0)
  | JSVal.other => false

/-- ymax - ymin with NaN propagation. -/
def jsSub (a b : JSVal) : Option ℚ :=
  match jsToNum a, jsToNum b with
  | some x, some y => some (x - y)
  | _, _ => none

/-- Half of xmin + xmax, the centre x, with NaN propagation. -/
def jsAddHalf (a b : JSVal) : Option ℚ :=
  match jsToNum a, jsToNum b with
  | some x, some y => some ((x + y) / 2)
  | _, _ => none

/-- Math.max(0, Math.min(1, x)): clamps numbers into [0,1] and propagates
NaN. -/
def clamp01 : Option ℚ → Option ℚ
  | some q => some (max 0 (min 1 q))
  | none => none

/-- Embedding of ParsedDetection (parseDetections.ts lines 1-5): each field is
null (outer none) or a JS number, which may be NaN (inner none). -/
structure ParsedDetection where
  height : Option (Option ℚ)
  confidence : Option (Option ℚ)
  centerX : Option (Option ℚ)
deriving DecidableEq

/-- The all-null result returned on every failure path. -/
def emptyParsed : ParsedDetection := ⟨none, none, none⟩

/-- The success path of parseDetections (lines 99-107): clamped height and
centre x from the selected box row, confidence from the scores when
present (scoresArr[idx] ?? null). -/
def parsedFromBox (box : JSVal) (scoresArr : Option (List JSVal)) (idx : Nat)
    : ParsedDetection :=
  { height := some (clamp01 (jsSub (jsIndex box 2) (jsIndex box 0))),
    confidence :=
      match scoresArr with
      | none => none
      | some s =>
        match s.getD idx JSVal.other with
        | JSVal.other => none
        | v => some (jsToNum v),
    centerX := some (clamp01 (jsAddHalf (jsIndex box 1) (jsIndex box 3))) }

/-- The tail of parseDetections once a boxes array has been resolved (lines
69-107): reject an empty row list, prefer a scores array whose length matches
the row count (keeping the mismatched one when no better is found), select
the best-scoring row, and build the clamped result if the row passes the
!box || box.length < 4 guard. -/
def parseWithBoxes (entries bs : List JSVal) : ParsedDetection :=
  if bs.length = 0 then emptyParsed
  else
    let scoresArr : Option (List JSVal) :=
      match firstSome extractScores entries with
      | none => none
      | some sc =>
        if sc.length ≠ bs.length then
          match matchingScores bs.length entries with
          | some s2 => some s2
          | none => some sc
        else some sc
    let idx : Nat :=
      match scoresArr with
      | some sc => bestIndex sc bs
      | none => 0
    let box := bs.getD idx JSVal.other
    if jsBoxOk box = true then parsedFromBox box scoresArr idx
    else emptyParsed

/-- Embedding of parseDetections (parseDetections.ts lines 7-111).  The
try/catch wrapping the whole body returns the empty result on any thrown
error; in this embedding every helper is total, so the catch is the final
else branches.  Non-arrays (including all falsy values) are rejected up
front; then boxes are scanned for, the [1,K,4] second pass runs if the first
scan fails, and the resolved rows are finished by parseWithBoxes. -/
def parseDetections (result : JSVal) : ParsedDetection :=
  match result with
  | JSVal.arr entries =>
    (match firstSome extractBoxes entries with
      | some b => parseWithBoxes entries b
      | none =>
        match secondPassBoxes entries with
        | some b => parseWithBoxes entries b
        | none => emptyParsed)
  | _ => emptyParsed

/-- A clamped field is within [0,1] whenever it is a real number. -/
theorem clamp01_range (a : Option ℚ) (q : ℚ) (h : clamp01 a = some q) :
    0 ≤ q ∧ q ≤ 1 := by
  cases a with
  | none => cases h
  | some x =>
    have hq : q = max 0 (min 1 x) := by
      injection h with h2
      exact h2.symm
    subst hq
    exact ⟨le_max_left 0 _, max_le (by norm_num) (min_le_left 1 x)⟩

/-- Whatever rows it is given, parseWithBoxes returns either the all-null
record or a record with present, [0,1]-clamped height and centre x. -/
theorem parseWithBoxes_shape (entries bs : List JSVal) :
    parseWithBoxes entries bs = emptyParsed
      ∨ ∃ (hn cn : Option ℚ) (cfd : Option (Option ℚ)),
          parseWithBoxes entries bs = ⟨some hn, cfd, some cn⟩
            ∧ (∀ q, hn = some q → 0 ≤ q ∧ q ≤ 1)
            ∧ (∀ q, cn = some q → 0 ≤ q ∧ q ≤ 1) := by
  simp only [parseWithBoxes]
  split_ifs with h0 hbox
  · exact Or.inl rfl
  · exact Or.inr ⟨_, _, _, rfl, fun q h => clamp01_range _ q h,
      fun q h => clamp01_range _ q h⟩
  · exact Or.inl rfl

/-- C8: parseDetections is a total function of an arbitrary JavaScript value
(never throws — in the source any escape is caught at lines 108-110 and
returns the empty result), and every result is a well-typed ParsedDetection:
either the all-null empty record {height: null, confidence: null,
centerX: null}, or a record with height and centerX present and clamped to
[0,1] whenever they are real numbers.  Concretely: a [K,4] nested box list
with a mismatched primary scores array picks the length-matching scores
array found later; and a non-array, an empty array and a bare number all
yield the empty record. -/
theorem c8_theorem :
    (∀ v : JSVal,
        parseDetections v = emptyParsed
          ∨ ∃ (hn cn : Option ℚ) (cfd : Option (Option ℚ)),
              parseDetections v = ⟨some hn, cfd, some cn⟩
                ∧ (∀ q, hn = some q → 0 ≤ q ∧ q ≤ 1)
                ∧ (∀ q, cn = some q → 0 ≤ q ∧ q ≤ 1))
      ∧ parseDetections (JSVal.arr
            [JSVal.arr [JSVal.num (1/10), JSVal.num (1/5),
              JSVal.num (1/2), JSVal.num (2/5)],
             JSVal.arr [JSVal.num (9/10)]])
          = ⟨some (some (2/5)), some (some (9/10)), some (some (3/10))⟩
      ∧ parseDetections JSVal.other = emptyParsed
      ∧ parseDetections (JSVal.arr []) = emptyParsed
      ∧ parseDetections (JSVal.num 5) = emptyParsed := by
  refine ⟨?_, ?_, rfl, ?_, rfl⟩
  · intro v
    cases v with
    | num q => exact Or.inl rfl
    | other => exact Or.inl rfl
    | arr entries =>
      simp only [parseDetections]
      rcases firstSome extractBoxes entries with _ | b
      · rcases secondPassBoxes entries with _ | b2
        · exact Or.inl rfl
        · exact parseWithBoxes_shape entries b2
      · exact parseWithBoxes_shape entries b
  · norm_num [parseDetections, parseWithBoxes, firstSome, extractBoxes,
      extractScores, chunk4, secondPassBoxes, matchingScores, bestIndex,
      scoreVal, jsToNum, jsIndex, jsBoxOk, jsSub, jsAddHalf, clamp01,
      parsedFromBox, emptyParsed, List.range_succ]
  · norm_num [parseDetections, firstSome, secondPassBoxes, emptyParsed]

end AiLens